import Mathlib

/-!
Verification of the commitment-scheme/strategy/transcript dispatch and
serialization-format management of the ezkl-ios-rust-porter crate
(src/lib.rs, src/serialization.rs, src/gen_witness.rs, src/prove.rs,
src/verify.rs), as a shallow embedding.

The external proving-system library (ezkl / halo2 / snark_verifier) is a
collaborator: its routines are abstracted as function-valued fields of an
environment record `Env`, and the compile-time generic instantiation of the
Rust code (which prover, verifier, strategy object and transcript type the
code picks) is reified as explicit data (`PipelineSelection` and friends).
Byte buffers are lists of naturals, JSON strings are `String`, fallible
calls return `Except`.
-/

namespace EzklPort

/-- Commitment scheme tags (ezkl `Commitments`): KZG or IPA. -/
inductive Commitments where
  | KZG
  | IPA
deriving DecidableEq, Repr

/-- Proof strategy tags (ezkl `StrategyType`): `Single` or `Accum`. -/
inductive StrategyType where
  | Single
  | Accum
deriving DecidableEq, Repr

/-- Transcript tags (ezkl `TranscriptType`): `EVM` or `Poseidon`. -/
inductive TranscriptType where
  | EVM
  | Poseidon
deriving DecidableEq, Repr

/-- Proof type tags (ezkl `ProofType`): `Single` or `ForAggr`. -/
inductive ProofType where
  | Single
  | ForAggr
deriving DecidableEq, Repr

/-- Check mode tags (ezkl `CheckMode`): `SAFE` or `UNSAFE`. -/
inductive CheckMode where
  | SAFE
  | UNSAFE
deriving DecidableEq, Repr

/-- The crate's `ProofTypeWrapper` (src/prove.rs lines 264-269). -/
inductive ProofTypeWrapper where
  | Single
  | ForAggr
deriving DecidableEq, Repr

/-- The crate's `CheckModeWrapper` (src/prove.rs lines 280-286). -/
inductive CheckModeWrapper where
  | SAFE
  | UNSAFE
deriving DecidableEq, Repr

/-- From the `From (ProofTypeWrapper) for ProofType` impl in src/prove.rs
lines 271-278. -/
def ProofTypeWrapper.toProofType : ProofTypeWrapper → ProofType
  | ProofTypeWrapper.Single => ProofType.Single
  | ProofTypeWrapper.ForAggr => ProofType.ForAggr

/-- From the `From (CheckModeWrapper) for CheckMode` impl in src/prove.rs
lines 288-295. -/
def CheckModeWrapper.toCheckMode : CheckModeWrapper → CheckMode
  | CheckModeWrapper.SAFE => CheckMode.SAFE
  | CheckModeWrapper.UNSAFE => CheckMode.UNSAFE

/-- Modelled from the spec: the collaborator ezkl library's conversion from
`ProofType` to `StrategyType` used by `prove_internal` (the conversion lives
in ezkl, outside this repository; the spec's dispatch table states `Single`
strategy for single proofs and the accumulator strategy for
aggregation-ready proofs). -/
def ProofType.toStrategy : ProofType → StrategyType
  | ProofType.Single => StrategyType.Single
  | ProofType.ForAggr => StrategyType.Accum

/-- Modelled from the spec: the collaborator ezkl library's conversion from
`ProofType` to `TranscriptType` used by `prove_internal` (the conversion
lives in ezkl, outside this repository; the spec's dispatch table hard-wires
`Single` to the EVM transcript and `ForAggregation` to Poseidon). -/
def ProofType.toTranscript : ProofType → TranscriptType
  | ProofType.Single => TranscriptType.EVM
  | ProofType.ForAggr => TranscriptType.Poseidon

/-- Commitment parameters (halo2 `Params`): a capacity `k` (log₂ of the row
count) plus the generator points, abstracted as naturals. -/
structure Params where
  k : Nat
  g : List Nat
deriving DecidableEq, Repr

/-- Modelled from the spec: the collaborator halo2 `Params::downsize`, which
truncates parameters so that their capacity becomes exactly the requested
`logrows` ("truncated (downsized) to capacity exactly logrows"). -/
def Params.downsize (p : Params) (logrows : Nat) : Params :=
  { k := logrows, g := p.g.take (2 ^ logrows) }

/-- The `run_args` part of circuit settings that this crate reads:
`logrows` and the commitment scheme. -/
structure RunArgs where
  logrows : Nat
  commitment : Commitments
deriving DecidableEq, Repr

/-- Circuit settings (ezkl `GraphSettings`): the run arguments plus the
module flag queried by `settings.module_requires_polycommit()`. -/
structure GraphSettings where
  run_args : RunArgs
  module_requires_polycommit : Bool
deriving DecidableEq, Repr

/-- Compiled circuit (ezkl `GraphCircuit`): its embedded settings plus an
opaque remainder. -/
structure GraphCircuit where
  settings : GraphSettings
  core : Nat
deriving DecidableEq, Repr

/-- The circuit's `Circuit::Params` used to deserialize keys
(`circuit.params()`); for ezkl's `GraphCircuit` this is its settings
record, as the calls `load_vk(vk_path, settings)` in src/verify.rs and
`deserialize_vk(vk, settings.clone())` in src/gen_witness.rs show. -/
def GraphCircuit.params (c : GraphCircuit) : GraphSettings :=
  c.settings

/-- Structured input data (ezkl `GraphData`), opaque. -/
structure GraphData where
  id : Nat
deriving DecidableEq, Repr

/-- Bound input state produced by `circuit.load_graph_input` (opaque). -/
structure GraphInputState where
  id : Nat
deriving DecidableEq, Repr

/-- A witness (ezkl `GraphWitness`), opaque. -/
structure GraphWitness where
  id : Nat
deriving DecidableEq, Repr

/-- A verifying key (halo2 `VerifyingKey`), opaque. -/
structure VKey where
  id : Nat
deriving DecidableEq, Repr

/-- A proving key (halo2 `ProvingKey`), opaque. -/
structure PKey where
  id : Nat
deriving DecidableEq, Repr

/-- A proof-split commit record (ezkl `ProofSplitCommit`), opaque. -/
structure ProofSplitCommit where
  id : Nat
deriving DecidableEq, Repr

/-- A compiled verification protocol (snark_verifier `Protocol`), opaque. -/
structure Protocol where
  id : Nat
deriving DecidableEq, Repr

/-- The snark_verifier `Config` built by `Config::kzg()` /
`Config::ipa()` and `with_num_instance`: the scheme it was created for and
the instance-count list. -/
structure Config where
  scheme : Commitments
  num_instance : List Nat
deriving DecidableEq, Repr

/-- From the call `Config::kzg()` in src/prove.rs. -/
def Config.kzg : Config :=
  { scheme := Commitments.KZG, num_instance := [] }

/-- From the call `Config::ipa()` in src/prove.rs. -/
def Config.ipa : Config :=
  { scheme := Commitments.IPA, num_instance := [] }

/-- From the call `.with_num_instance(vec![...])` in src/prove.rs. -/
def Config.with_num_instance (c : Config) (ns : List Nat) : Config :=
  { c with num_instance := ns }

/-- A proof object (ezkl `Snark`): proof bytes, public-input instances, the
transcript kind it was created under, and the human-readable rendering of
the public inputs. -/
structure Snark where
  proof : List Nat
  instances : List (List Nat)
  transcript_type : TranscriptType
  pretty_public_inputs : Option String
deriving DecidableEq, Repr

/-- Region settings (ezkl `RegionSettings`), with
`RegionSettings::all_true()` as used in src/gen_witness.rs. -/
structure RegionSettings where
  all : Bool
deriving DecidableEq, Repr

/-- From the call `RegionSettings::all_true()` in src/gen_witness.rs. -/
def RegionSettings.all_true : RegionSettings :=
  { all := true }

/-- The internal error type (ezkl `EZKLError`, named `InnerEZKLError` in
the crate), restricted to the variants this crate's code produces or
forwards; each carries its message. -/
inductive InnerError where
  | IoError (msg : String)
  | JsonError (msg : String)
  | SrsError (msg : String)
  | PfsysError (msg : String)
  | PlonkError (msg : String)
  | GraphError (msg : String)
deriving DecidableEq, Repr

/-- The message an internal error displays (ezkl's Display impl,
abstracted to the carried message). -/
def InnerError.toMessage : InnerError → String
  | InnerError.IoError m => m
  | InnerError.JsonError m => m
  | InnerError.SrsError m => m
  | InnerError.PfsysError m => m
  | InnerError.PlonkError m => m
  | InnerError.GraphError m => m

/-- The crate's public error type `EZKLError` (src/lib.rs lines 19-23):
`InternalError(String)` or `InvalidInput(String)`. -/
inductive EZKLError where
  | InternalError (msg : String)
  | InvalidInput (msg : String)
deriving DecidableEq, Repr

/-- The `From (InnerEZKLError) for EZKLError` impl (src/lib.rs lines
34-38): every internal error becomes `InternalError` of its message. -/
def EZKLError.fromInner (e : InnerError) : EZKLError :=
  EZKLError.InternalError e.toMessage

/-- True exactly on the `InvalidInput` variant. -/
def EZKLError.isInvalidInputVariant : EZKLError → Bool
  | EZKLError.InternalError _ => false
  | EZKLError.InvalidInput _ => true

/-- Prover algorithm tags reifying the Rust type parameter:
`ProverSHPLONK` or `ProverIPA`. -/
inductive ProverKind where
  | SHPLONK
  | IPA
deriving DecidableEq, Repr

/-- Verifier algorithm tags reifying the Rust type parameter:
`VerifierSHPLONK` or `VerifierIPA`. -/
inductive VerifierKind where
  | SHPLONK
  | IPA
deriving DecidableEq, Repr

/-- Verification-strategy object tags reifying the Rust type parameter:
`SingleStrategy` or `AccumulatorStrategy`. -/
inductive StrategyObj where
  | SingleProof
  | Accumulator
deriving DecidableEq, Repr

/-- One row of the scheme dispatch: the prover, verifier, strategy object
and transcript type a `create_proof_circuit` instantiation is given. -/
structure PipelineSelection where
  prover : ProverKind
  verifier : VerifierKind
  strategyObj : StrategyObj
  transcript : TranscriptType
deriving DecidableEq, Repr

/-- Rust's `Result::map_err`. -/
def mapErr {e e' a : Type} (f : e → e') : Except e a → Except e' a
  | Except.error x => Except.error (f x)
  | Except.ok v => Except.ok v

/-- The collaborator interface: every routine the crate calls in the
external proving-system library (ezkl / halo2 / serde / bincode /
snark_verifier), as abstract functions.  Raw readers that the crate wraps
with its own error mapping return a bare message; ezkl orchestration
routines return `InnerError` directly, as in the source. -/
structure Env where
  bincodeDecodeCircuit : List Nat → Except String GraphCircuit
  jsonDecodeWitness : String → Except String GraphWitness
  jsonDecodeGraphData : String → Except String GraphData
  jsonDecodeSnark : String → Except String Snark
  jsonEncodeSnark : Snark → Except String String
  witnessAsJson : GraphWitness → Except InnerError String
  readVk : Commitments → List Nat → GraphSettings → Except String VKey
  readPk : Commitments → List Nat → GraphSettings → Except String PKey
  readParamsProver : Commitments → List Nat → Except String Params
  loadSettingsFile : String → Except InnerError GraphSettings
  snarkLoadFile : Commitments → String → Except InnerError Snark
  loadSrsVerifierFile : Commitments → String → Except InnerError Params
  loadVkFile : Commitments → String → GraphSettings → Except InnerError VKey
  loadGraphWitness : GraphCircuit → GraphWitness → Except InnerError GraphCircuit
  prettyPublicInputs : GraphCircuit → GraphWitness → Except InnerError (Option String)
  preparePublicInputs : GraphCircuit → GraphWitness → Except InnerError (List Nat)
  proofSplitCommit : GraphWitness → Option ProofSplitCommit
  loadGraphInput : GraphCircuit → GraphData → Except InnerError GraphInputState
  forward : Commitments → GraphCircuit → GraphInputState → Option VKey → Option Params →
      RegionSettings → Except InnerError GraphWitness
  compileProtocol : Params → PKey → Config → Protocol
  createProofCircuit : PipelineSelection → GraphCircuit → List (List Nat) → Params → PKey →
      CheckMode → Commitments → TranscriptType → Option ProofSplitCommit → Option Protocol →
      Except InnerError Snark
  verifyProofCircuit : VerifierKind → StrategyObj → TranscriptType → Snark → Params → VKey →
      Nat → Except String Unit

/-- The crate's `deserialize_circuit` (src/serialization.rs lines 25-31):
bincode-decode, wrapping a failure into an io error of kind
InvalidInput. -/
def deserialize_circuit (env : Env) (compiled_circuit : List Nat) :
    Except InnerError GraphCircuit :=
  match env.bincodeDecodeCircuit compiled_circuit with
  | Except.error e => Except.error (InnerError.IoError e)
  | Except.ok c => Except.ok c

/-- The crate's `deserialize_vk` (src/serialization.rs lines 46-68): read a
verifying key for the scheme the caller instantiates, wrapping a failure
into `PfsysError::LoadVk`. -/
def deserialize_vk (env : Env) (scheme : Commitments) (serialised_vk : List Nat)
    (params : GraphSettings) : Except InnerError VKey :=
  match env.readVk scheme serialised_vk params with
  | Except.error e => Except.error (InnerError.PfsysError e)
  | Except.ok vk => Except.ok vk

/-- The crate's `deserialize_pk` (src/serialization.rs lines 83-105): read a
proving key for the scheme the caller instantiates, wrapping a failure into
`PfsysError::LoadPk`. -/
def deserialize_pk (env : Env) (scheme : Commitments) (serialised_pk : List Nat)
    (params : GraphSettings) : Except InnerError PKey :=
  match env.readPk scheme serialised_pk params with
  | Except.error e => Except.error (InnerError.PfsysError e)
  | Except.ok pk => Except.ok pk

/-- The crate's `deserialize_params_prover` (src/serialization.rs lines
118-142, identical in src/util.rs lines 44-62): require the SRS bytes, read
the parameters, and downsize them to `logrows` when (and only when) the
decoded capacity exceeds `logrows`.  The reader is passed in as the
collaborator's `Params::read` for the instantiated scheme. -/
def deserialize_params_prover (readParams : List Nat → Except String Params)
    (serialized_srs : Option (List Nat)) (logrows : Nat) : Except InnerError Params :=
  match serialized_srs with
  | none => Except.error (InnerError.IoError ("SRS must be provided"))
  | some srs =>
    match readParams srs with
    | Except.error e => Except.error (InnerError.SrsError e)
    | Except.ok params =>
      Except.ok (if logrows < params.k then params.downsize logrows else params)

/-- The crate's `gen_witness_internal` (src/gen_witness.rs lines 47-140):
decode the circuit, parse the input JSON, optionally decode a verifying key
— always under the KZG scheme — bind the input, then run forward execution
with prover parameters exactly when the settings require a polynomial
commitment and SRS bytes were supplied. -/
def gen_witness_internal (env : Env) (compiled_circuit : List Nat) (input_data : String)
    (serialised_vk : Option (List Nat)) (serialised_srs : Option (List Nat)) :
    Except InnerError GraphWitness :=
  match deserialize_circuit env compiled_circuit with
  | Except.error e => Except.error e
  | Except.ok circuit =>
    match env.jsonDecodeGraphData input_data with
    | Except.error e => Except.error (InnerError.JsonError e)
    | Except.ok data =>
      let settings := circuit.settings
      match (match serialised_vk with
             | some vkb =>
               match deserialize_vk env Commitments.KZG vkb settings with
               | Except.error e => Except.error e
               | Except.ok v => Except.ok (some v)
             | none => (Except.ok none : Except InnerError (Option VKey))) with
      | Except.error e => Except.error e
      | Except.ok vk =>
        match env.loadGraphInput circuit data with
        | Except.error e => Except.error e
        | Except.ok input =>
          let region_settings := RegionSettings.all_true
          if settings.module_requires_polycommit then
            if serialised_srs.isSome then
              match settings.run_args.commitment with
              | Commitments.KZG =>
                match deserialize_params_prover (env.readParamsProver Commitments.KZG)
                    serialised_srs settings.run_args.logrows with
                | Except.error e => Except.error e
                | Except.ok srs =>
                  env.forward Commitments.KZG circuit input vk (some srs) region_settings
              | Commitments.IPA =>
                match deserialize_params_prover (env.readParamsProver Commitments.IPA)
                    serialised_srs settings.run_args.logrows with
                | Except.error e => Except.error e
                | Except.ok srs =>
                  env.forward Commitments.IPA circuit input vk (some srs) region_settings
            else
              env.forward Commitments.KZG circuit input vk none region_settings
          else
            env.forward Commitments.KZG circuit input vk none region_settings

/-- The tail of `gen_witness_internal` after the verifying key has been
decoded (src/gen_witness.rs lines 68-139), written out separately so that a
theorem can state what the function does with the decoded key. -/
def gen_witness_after_vk (env : Env) (circuit : GraphCircuit) (data : GraphData)
    (vk : Option VKey) (serialised_srs : Option (List Nat)) :
    Except InnerError GraphWitness :=
  let settings := circuit.settings
  match env.loadGraphInput circuit data with
  | Except.error e => Except.error e
  | Except.ok input =>
    let region_settings := RegionSettings.all_true
    if settings.module_requires_polycommit then
      if serialised_srs.isSome then
        match settings.run_args.commitment with
        | Commitments.KZG =>
          match deserialize_params_prover (env.readParamsProver Commitments.KZG)
              serialised_srs settings.run_args.logrows with
          | Except.error e => Except.error e
          | Except.ok srs =>
            env.forward Commitments.KZG circuit input vk (some srs) region_settings
        | Commitments.IPA =>
          match deserialize_params_prover (env.readParamsProver Commitments.IPA)
              serialised_srs settings.run_args.logrows with
          | Except.error e => Except.error e
          | Except.ok srs =>
            env.forward Commitments.IPA circuit input vk (some srs) region_settings
      else
        env.forward Commitments.KZG circuit input vk none region_settings
    else
      env.forward Commitments.KZG circuit input vk none region_settings

/-- The crate's exported `gen_witness` (src/gen_witness.rs lines 31-45):
run `gen_witness_internal` with the verifying key and SRS both supplied,
then serialize the witness to JSON; every internal error crosses the
boundary through `EZKLError.fromInner`. -/
def gen_witness (env : Env) (input_json : String) (compiled_circuit : List Nat)
    (vk : List Nat) (srs : List Nat) : Except EZKLError String :=
  match gen_witness_internal env compiled_circuit input_json (some vk) (some srs) with
  | Except.error e => Except.error (EZKLError.fromInner e)
  | Except.ok graph =>
    match env.witnessAsJson graph with
    | Except.error e => Except.error (EZKLError.fromInner e)
    | Except.ok witness_json => Except.ok witness_json

/-- The crate's `prove_internal` (src/prove.rs lines 96-262): decode the
witness and circuit, bind the witness, extract public inputs, then
dispatch on the circuit's declared commitment scheme and the requested
strategy to one of four `create_proof_circuit` instantiations, compiling a
verification protocol only on the accumulator arms; finally attach the
human-readable public inputs to the snark. -/
def prove_internal (env : Env) (witness_json : String) (compiled_circuit : List Nat)
    (serialized_pk : List Nat) (serialised_srs : Option (List Nat))
    (proof_type : ProofType) (check_mode : CheckMode) : Except InnerError Snark :=
  match env.jsonDecodeWitness witness_json with
  | Except.error e => Except.error (InnerError.JsonError e)
  | Except.ok data =>
    match deserialize_circuit env compiled_circuit with
    | Except.error e => Except.error e
    | Except.ok circuit0 =>
      match env.loadGraphWitness circuit0 data with
      | Except.error e => Except.error e
      | Except.ok circuit =>
        match env.prettyPublicInputs circuit data with
        | Except.error e => Except.error e
        | Except.ok pretty_public_inputs =>
          match env.preparePublicInputs circuit data with
          | Except.error e => Except.error e
          | Except.ok public_inputs =>
            let circuit_settings := circuit.settings
            let strategy := proof_type.toStrategy
            let transcript := proof_type.toTranscript
            let proof_split_commits := env.proofSplitCommit data
            let commitment := circuit_settings.run_args.commitment
            let logrows := circuit_settings.run_args.logrows
            let snarkRes : Except InnerError Snark :=
              match commitment with
              | Commitments.KZG =>
                match deserialize_pk env Commitments.KZG serialized_pk circuit.params with
                | Except.error e => Except.error e
                | Except.ok pk =>
                  match deserialize_params_prover (env.readParamsProver Commitments.KZG)
                      serialised_srs logrows with
                  | Except.error e => Except.error e
                  | Except.ok params =>
                    match strategy with
                    | StrategyType.Single =>
                      env.createProofCircuit
                        ⟨ProverKind.SHPLONK, VerifierKind.SHPLONK, StrategyObj.SingleProof,
                          TranscriptType.EVM⟩
                        circuit [public_inputs] params pk check_mode commitment transcript
                        proof_split_commits none
                    | StrategyType.Accum =>
                      let protocol := some (env.compileProtocol params pk
                        (Config.kzg.with_num_instance [public_inputs.length]))
                      env.createProofCircuit
                        ⟨ProverKind.SHPLONK, VerifierKind.SHPLONK, StrategyObj.Accumulator,
                          TranscriptType.Poseidon⟩
                        circuit [public_inputs] params pk check_mode commitment transcript
                        proof_split_commits protocol
              | Commitments.IPA =>
                match deserialize_pk env Commitments.IPA serialized_pk circuit.params with
                | Except.error e => Except.error e
                | Except.ok pk =>
                  match deserialize_params_prover (env.readParamsProver Commitments.IPA)
                      serialised_srs circuit_settings.run_args.logrows with
                  | Except.error e => Except.error e
                  | Except.ok params =>
                    match strategy with
                    | StrategyType.Single =>
                      env.createProofCircuit
                        ⟨ProverKind.IPA, VerifierKind.IPA, StrategyObj.SingleProof,
                          TranscriptType.EVM⟩
                        circuit [public_inputs] params pk check_mode commitment transcript
                        proof_split_commits none
                    | StrategyType.Accum =>
                      let protocol := some (env.compileProtocol params pk
                        (Config.ipa.with_num_instance [public_inputs.length]))
                      env.createProofCircuit
                        ⟨ProverKind.IPA, VerifierKind.IPA, StrategyObj.Accumulator,
                          TranscriptType.Poseidon⟩
                        circuit [public_inputs] params pk check_mode commitment transcript
                        proof_split_commits protocol
            match snarkRes with
            | Except.error e => Except.error e
            | Except.ok snark =>
              Except.ok { snark with pretty_public_inputs := pretty_public_inputs }

/-- The crate's exported `prove_advanced` (src/prove.rs lines 72-94): run
`prove_internal` with the SRS supplied and the wrapper enums converted,
serialize the snark to JSON, and map every error across the boundary. -/
def prove_advanced (env : Env) (witness_json : String) (compiled_circuit : List Nat)
    (pk : List Nat) (srs : List Nat) (proof_type : ProofTypeWrapper)
    (check_mode : CheckModeWrapper) : Except EZKLError String :=
  match prove_internal env witness_json compiled_circuit pk (some srs)
      proof_type.toProofType check_mode.toCheckMode with
  | Except.ok snark =>
    match env.jsonEncodeSnark snark with
    | Except.error e => Except.error (EZKLError.fromInner (InnerError.JsonError e))
    | Except.ok s => Except.ok s
  | Except.error e => Except.error (EZKLError.fromInner e)

/-- The crate's exported `prove` (src/prove.rs lines 38-52): `prove_advanced`
with the documented defaults, strategy `Single` and check mode `SAFE`. -/
def prove (env : Env) (witness_json : String) (compiled_circuit : List Nat)
    (pk : List Nat) (srs : List Nat) : Except EZKLError String :=
  prove_advanced env witness_json compiled_circuit pk srs
    ProofTypeWrapper.Single CheckModeWrapper.SAFE

/-- The proof-resolution match that `verify` and `verify_commitment` both
perform (src/verify.rs lines 67-76, 119-130 and 213-222): a proof comes
either as JSON or as a path, never both nor neither. -/
def resolveProof (env : Env) (scheme : Commitments) (proof_json : Option String)
    (proof_path : Option String) : Except InnerError Snark :=
  match proof_json, proof_path with
  | none, some p => env.snarkLoadFile scheme p
  | some j, none =>
    match env.jsonDecodeSnark j with
    | Except.error e => Except.error (InnerError.JsonError e)
    | Except.ok s => Except.ok s
  | _, _ =>
    Except.error
      (InnerError.IoError ("Proof must be provided in one of the two ways: json or path"))

/-- The crate's `load_params_verifier` (src/verify.rs lines 171-185):
require an SRS path, load the verifier parameters, and downsize them to
`logrows` when the loaded capacity exceeds it. -/
def load_params_verifier (env : Env) (scheme : Commitments) (srs_path : Option String)
    (logrows : Nat) : Except InnerError Params :=
  match srs_path with
  | none => Except.error (InnerError.IoError ("SRS path must be provided"))
  | some p =>
    match env.loadSrsVerifierFile scheme p with
    | Except.error e => Except.error e
    | Except.ok params =>
      Except.ok (if logrows < params.k then params.downsize logrows else params)

/-- The crate's `verify_commitment` (src/verify.rs lines 187-239): resolve
the proof, build the strategy over the parameters, load the verifying key,
run `verify_proof_circuit` at 2 ^ logrows rows, and map acceptance to
`true` and every rejection to a plonk error.  The generic type parameters
(scheme, verifier, strategy, transcript reader) are reified as value
arguments. -/
def verify_commitment (env : Env) (scheme : Commitments) (verifier : VerifierKind)
    (strategyObj : StrategyObj) (transcriptR : TranscriptType)
    (proof_json : Option String) (proof_path : Option String)
    (settings : GraphSettings) (vk_path : String) (params : Params) (logrows : Nat) :
    Except InnerError Bool :=
  match resolveProof env scheme proof_json proof_path with
  | Except.error e => Except.error e
  | Except.ok proof =>
    match env.loadVkFile scheme vk_path settings with
    | Except.error e => Except.error e
    | Except.ok vk =>
      match env.verifyProofCircuit verifier strategyObj transcriptR proof params vk
          (2 ^ logrows) with
      | Except.ok _ => Except.ok true
      | Except.error e => Except.error (InnerError.PlonkError e)

/-- The crate's `verify` (src/verify.rs lines 52-169): load the settings,
read scheme and logrows from them, resolve the proof, load verifier
parameters (at capacity 1 instead of logrows when `reduced_srs` is set on
the KZG path), and dispatch on the proof's own transcript kind to the
matching `verify_commitment` instantiation — all four arms with the
single-proof strategy. -/
def verify (env : Env) (proof_json : Option String) (proof_path : Option String)
    (settings_path : String) (vk_path : String) (srs_path : Option String)
    (reduced_srs : Bool) : Except InnerError Bool :=
  match env.loadSettingsFile settings_path with
  | Except.error e => Except.error e
  | Except.ok circuit_settings =>
    let logrows := circuit_settings.run_args.logrows
    let commitment := circuit_settings.run_args.commitment
    match commitment with
    | Commitments.KZG =>
      match resolveProof env Commitments.KZG proof_json proof_path with
      | Except.error e => Except.error e
      | Except.ok proof =>
        match (if reduced_srs then load_params_verifier env Commitments.KZG srs_path 1
               else load_params_verifier env Commitments.KZG srs_path logrows) with
        | Except.error e => Except.error e
        | Except.ok params =>
          match proof.transcript_type with
          | TranscriptType.EVM =>
            verify_commitment env Commitments.KZG VerifierKind.SHPLONK StrategyObj.SingleProof
              TranscriptType.EVM proof_json proof_path circuit_settings vk_path params logrows
          | TranscriptType.Poseidon =>
            verify_commitment env Commitments.KZG VerifierKind.SHPLONK StrategyObj.SingleProof
              TranscriptType.Poseidon proof_json proof_path circuit_settings vk_path params
              logrows
    | Commitments.IPA =>
      match resolveProof env Commitments.IPA proof_json proof_path with
      | Except.error e => Except.error e
      | Except.ok proof =>
        match load_params_verifier env Commitments.IPA srs_path logrows with
        | Except.error e => Except.error e
        | Except.ok params =>
          match proof.transcript_type with
          | TranscriptType.EVM =>
            verify_commitment env Commitments.IPA VerifierKind.IPA StrategyObj.SingleProof
              TranscriptType.EVM proof_json proof_path circuit_settings vk_path params logrows
          | TranscriptType.Poseidon =>
            verify_commitment env Commitments.IPA VerifierKind.IPA StrategyObj.SingleProof
              TranscriptType.Poseidon proof_json proof_path circuit_settings vk_path params
              logrows

/-- The crate's exported `verify_wrapper` (src/verify.rs lines 30-50): call
`verify` with the proof as JSON, no proof path, and `reduced_srs` fixed to
`false`, mapping internal errors across the boundary. -/
def verify_wrapper (env : Env) (proof_json : String) (settings_path : String)
    (vk_path : String) (srs_path : Option String) : Except EZKLError Bool :=
  mapErr EZKLError.fromInner
    (verify env (some proof_json) none settings_path vk_path srs_path false)

/-- Modelled from the spec: the dispatch table of spec section 4.2 — KZG
rows use the SHPLONK prover and verifier, IPA rows the IPA pair; the
`Single` strategy rows use the single-proof strategy object with the EVM
transcript, the aggregation rows the accumulator strategy object with the
Poseidon transcript. -/
def specProveTable : Commitments → StrategyType → PipelineSelection
  | Commitments.KZG, StrategyType.Single =>
    ⟨ProverKind.SHPLONK, VerifierKind.SHPLONK, StrategyObj.SingleProof, TranscriptType.EVM⟩
  | Commitments.KZG, StrategyType.Accum =>
    ⟨ProverKind.SHPLONK, VerifierKind.SHPLONK, StrategyObj.Accumulator, TranscriptType.Poseidon⟩
  | Commitments.IPA, StrategyType.Single =>
    ⟨ProverKind.IPA, VerifierKind.IPA, StrategyObj.SingleProof, TranscriptType.EVM⟩
  | Commitments.IPA, StrategyType.Accum =>
    ⟨ProverKind.IPA, VerifierKind.IPA, StrategyObj.Accumulator, TranscriptType.Poseidon⟩

/-- Modelled from the spec: the verifier column of the section 4.2 table, as
used by verification — SHPLONK for KZG, IPA for IPA. -/
def specVerifyVerifier : Commitments → VerifierKind
  | Commitments.KZG => VerifierKind.SHPLONK
  | Commitments.IPA => VerifierKind.IPA

/-- Modelled from the spec: the capacity at which verifier parameters are
decoded per spec section 4.5 step 3 — `logrows`, except capacity 1 when
`reduced_srs` is set on the KZG path; never reduced on the IPA path. -/
def specSrsCapacity : Commitments → Bool → Nat → Nat
  | Commitments.KZG, reduced, logrows => if reduced then 1 else logrows
  | Commitments.IPA, _, logrows => logrows

/-- Sample settings: a KZG circuit with logrows 2. -/
def sampleSettings : GraphSettings :=
  ⟨⟨2, Commitments.KZG⟩, false⟩

/-- Sample circuit carrying the sample settings. -/
def sampleCircuit : GraphCircuit :=
  ⟨sampleSettings, 0⟩

/-- Sample proof object, created under the EVM transcript. -/
def sampleSnark : Snark :=
  ⟨[1], [[2]], TranscriptType.EVM, none⟩

/-- Sample parameters of capacity 2. -/
def sampleParams : Params :=
  ⟨2, [0, 1, 2, 3]⟩

/-- A concrete collaborator environment in which every routine succeeds
with a fixed value; used to instantiate theorems at concrete inputs. -/
def sampleEnv : Env where
  bincodeDecodeCircuit := fun _ => Except.ok sampleCircuit
  jsonDecodeWitness := fun _ => Except.ok ⟨0⟩
  jsonDecodeGraphData := fun _ => Except.ok ⟨0⟩
  jsonDecodeSnark := fun _ => Except.ok sampleSnark
  jsonEncodeSnark := fun _ => Except.ok ("snark")
  witnessAsJson := fun _ => Except.ok ("witness")
  readVk := fun _ _ _ => Except.ok ⟨0⟩
  readPk := fun _ _ _ => Except.ok ⟨0⟩
  readParamsProver := fun _ _ => Except.ok sampleParams
  loadSettingsFile := fun _ => Except.ok sampleSettings
  snarkLoadFile := fun _ _ => Except.ok sampleSnark
  loadSrsVerifierFile := fun _ _ => Except.ok sampleParams
  loadVkFile := fun _ _ _ => Except.ok ⟨0⟩
  loadGraphWitness := fun c _ => Except.ok c
  prettyPublicInputs := fun _ _ => Except.ok none
  preparePublicInputs := fun _ _ => Except.ok [5]
  proofSplitCommit := fun _ => none
  loadGraphInput := fun _ _ => Except.ok ⟨0⟩
  forward := fun _ _ _ _ _ _ => Except.ok ⟨1⟩
  compileProtocol := fun _ _ _ => ⟨0⟩
  createProofCircuit := fun _ _ _ _ _ _ _ _ _ _ => Except.ok sampleSnark
  verifyProofCircuit := fun _ _ _ _ _ _ _ => Except.ok ()

/-- C1 (counterexample): with decoded capacity k = 1 strictly below
logrows = 2, `deserialize_params_prover` succeeds and returns the
parameters unchanged — it does not return an InsufficientCapacity (or any)
error, contrary to the claim. -/
theorem C1_counterexample :
    (1 : Nat) < 2 ∧
      deserialize_params_prover (fun _ => Except.ok (⟨1, [7, 8]⟩ : Params)) (some [0]) 2 =
        Except.ok (⟨1, [7, 8]⟩ : Params) := by
  exact ⟨by decide, rfl⟩

/-- C1 (amended): for every SRS buffer that decodes to parameters of
capacity k, `deserialize_params_prover` always succeeds: it truncates the
parameters to capacity logrows when k > logrows and returns them unchanged
otherwise (including when k < logrows), so the resulting capacity is
min k logrows; no InsufficientCapacity error exists on this path. -/
theorem C1_amended (readP : List Nat → Except String Params) (buf : List Nat)
    (logrows : Nat) (params : Params) (h : readP buf = Except.ok params) :
    deserialize_params_prover readP (some buf) logrows =
      Except.ok (if logrows < params.k then params.downsize logrows else params) ∧
      (if logrows < params.k then params.downsize logrows else params).k =
        min params.k logrows := by
  constructor
  · simp [deserialize_params_prover, h]
  · by_cases hlt : logrows < params.k
    · simp [hlt, Params.downsize]
      omega
    · simp [hlt]
      omega

/-- C1 witness: the amended statement at a concrete reader of capacity 3
and logrows 2 — the result is truncated to capacity 2 = min 3 2. -/
theorem C1_amended_witness :
    deserialize_params_prover (fun _ => Except.ok (⟨3, [0, 1, 2, 3, 4, 5, 6, 7]⟩ : Params))
        (some [0]) 2 =
      Except.ok (⟨2, [0, 1, 2, 3]⟩ : Params) ∧ (2 : Nat) = min 3 2 :=
  C1_amended (fun _ => Except.ok ⟨3, [0, 1, 2, 3, 4, 5, 6, 7]⟩) [0] 2
    ⟨3, [0, 1, 2, 3, 4, 5, 6, 7]⟩ rfl

/-- C2: `verify_commitment` either returns ok true or a typed error (it
never returns ok false), and it returns ok true exactly when the proof
resolves, the verifying key loads, and the underlying cryptographic check
`verify_proof_circuit` accepts. -/
theorem C2_theorem (env : Env) (scheme : Commitments) (verifier : VerifierKind)
    (strategyObj : StrategyObj) (transcriptR : TranscriptType) (proof_json : Option String)
    (proof_path : Option String) (settings : GraphSettings) (vk_path : String)
    (params : Params) (logrows : Nat) :
    (verify_commitment env scheme verifier strategyObj transcriptR proof_json proof_path
        settings vk_path params logrows = Except.ok true ∨
      ∃ e, verify_commitment env scheme verifier strategyObj transcriptR proof_json proof_path
        settings vk_path params logrows = Except.error e) ∧
    (verify_commitment env scheme verifier strategyObj transcriptR proof_json proof_path
        settings vk_path params logrows = Except.ok true ↔
      ∃ proof vk, resolveProof env scheme proof_json proof_path = Except.ok proof ∧
        env.loadVkFile scheme vk_path settings = Except.ok vk ∧
        env.verifyProofCircuit verifier strategyObj transcriptR proof params vk
          (2 ^ logrows) = Except.ok ()) := by
  rcases hres : resolveProof env scheme proof_json proof_path with e | proof
  · simp [verify_commitment, hres]
  · rcases hvk : env.loadVkFile scheme vk_path settings with e | vk
    · simp [verify_commitment, hres, hvk]
    · rcases hcheck : env.verifyProofCircuit verifier strategyObj transcriptR proof params vk
          (2 ^ logrows) with e | u
      · simp [verify_commitment, hres, hvk, hcheck]
      · cases u
        simp [verify_commitment, hres, hvk, hcheck]

/-- C8: the simple `prove` entry point returns exactly what
`prove_advanced` returns on the same inputs with strategy Single and check
mode SAFE. -/
theorem C8_theorem (env : Env) (witness_json : String) (compiled_circuit : List Nat)
    (pk : List Nat) (srs : List Nat) :
    prove env witness_json compiled_circuit pk srs =
      prove_advanced env witness_json compiled_circuit pk srs
        ProofTypeWrapper.Single CheckModeWrapper.SAFE := rfl

/-- C9: witness generation is deterministic — two runs of the witness
pipeline (internal witness generation followed by JSON serialization) on
identical inputs with no SRS yield identical witness JSON. -/
theorem C9_theorem (env : Env) (compiled_circuit : List Nat) (input_data : String)
    (serialised_vk : Option (List Nat)) (j1 j2 : Except InnerError String)
    (h1 : j1 = (gen_witness_internal env compiled_circuit input_data serialised_vk
      none).bind env.witnessAsJson)
    (h2 : j2 = (gen_witness_internal env compiled_circuit input_data serialised_vk
      none).bind env.witnessAsJson) :
    j1 = j2 :=
  h1.trans h2.symm

/-- C9 witness: the determinism statement at a concrete environment and
input. -/
theorem C9_witness :
    ((gen_witness_internal sampleEnv [0] ("inp") none none).bind sampleEnv.witnessAsJson) =
      ((gen_witness_internal sampleEnv [0] ("inp") none none).bind
        sampleEnv.witnessAsJson) :=
  C9_theorem sampleEnv [0] ("inp") none _ _ rfl rfl

/-- C3: `prove_internal` resolves the (scheme, strategy) pair exactly per
the fixed dispatch table `specProveTable` — KZG circuits get the SHPLONK
prover/verifier, IPA circuits the IPA pair; the Single strategy uses the
EVM transcript with the single-proof strategy object and compiles no
protocol; the ForAggregation strategy uses the Poseidon transcript with the
accumulator strategy object and passes a protocol compiled at the count of
public instances into proof creation. -/
theorem C3_theorem (env : Env) (w : String) (cc pkb srsb : List Nat)
    (pt : ProofType) (cm : CheckMode) (data : GraphWitness)
    (circuit0 circuit : GraphCircuit) (pretty : Option String) (pubs : List Nat)
    (pkv : PKey) (params0 : Params)
    (h1 : env.jsonDecodeWitness w = Except.ok data)
    (h2 : env.bincodeDecodeCircuit cc = Except.ok circuit0)
    (h3 : env.loadGraphWitness circuit0 data = Except.ok circuit)
    (h4 : env.prettyPublicInputs circuit data = Except.ok pretty)
    (h5 : env.preparePublicInputs circuit data = Except.ok pubs)
    (h6 : env.readPk circuit.settings.run_args.commitment pkb circuit.params = Except.ok pkv)
    (h7 : env.readParamsProver circuit.settings.run_args.commitment srsb =
      Except.ok params0) :
    prove_internal env w cc pkb (some srsb) pt cm =
      match env.createProofCircuit
          (specProveTable circuit.settings.run_args.commitment pt.toStrategy)
          circuit [pubs]
          (if circuit.settings.run_args.logrows < params0.k then
            params0.downsize circuit.settings.run_args.logrows
          else params0)
          pkv cm circuit.settings.run_args.commitment pt.toTranscript
          (env.proofSplitCommit data)
          (match pt.toStrategy with
           | StrategyType.Single => none
           | StrategyType.Accum =>
             some (env.compileProtocol
               (if circuit.settings.run_args.logrows < params0.k then
                 params0.downsize circuit.settings.run_args.logrows
               else params0)
               pkv
               ⟨circuit.settings.run_args.commitment, [pubs.length]⟩)) with
      | Except.error e => Except.error e
      | Except.ok snark => Except.ok { snark with pretty_public_inputs := pretty } := by
  obtain ⟨⟨⟨lr, sch⟩, mrp⟩, core⟩ := circuit
  simp only [GraphCircuit.params] at h6 h7
  cases sch <;> cases pt <;>
    simp_all [prove_internal, deserialize_circuit, deserialize_pk, deserialize_params_prover,
      GraphCircuit.params, specProveTable, ProofType.toStrategy, ProofType.toTranscript,
      Config.kzg, Config.ipa, Config.with_num_instance]

/-- C3 witness: the dispatch statement at the concrete sample environment,
for a KZG circuit with the aggregation strategy. -/
theorem C3_witness :
    prove_internal sampleEnv ("w") [0] [1] (some [2]) ProofType.ForAggr CheckMode.SAFE =
      match sampleEnv.createProofCircuit
          (specProveTable sampleCircuit.settings.run_args.commitment
            ProofType.ForAggr.toStrategy)
          sampleCircuit [[5]]
          (if sampleCircuit.settings.run_args.logrows < sampleParams.k then
            sampleParams.downsize sampleCircuit.settings.run_args.logrows
          else sampleParams)
          ⟨0⟩ CheckMode.SAFE sampleCircuit.settings.run_args.commitment
          ProofType.ForAggr.toTranscript (sampleEnv.proofSplitCommit ⟨0⟩)
          (match ProofType.ForAggr.toStrategy with
           | StrategyType.Single => none
           | StrategyType.Accum =>
             some (sampleEnv.compileProtocol
               (if sampleCircuit.settings.run_args.logrows < sampleParams.k then
                 sampleParams.downsize sampleCircuit.settings.run_args.logrows
               else sampleParams)
               ⟨0⟩
               ⟨sampleCircuit.settings.run_args.commitment, [[5].length]⟩)) with
      | Except.error e => Except.error e
      | Except.ok snark => Except.ok { snark with pretty_public_inputs := none } :=
  C3_theorem sampleEnv ("w") [0] [1] [2] ProofType.ForAggr CheckMode.SAFE ⟨0⟩
    sampleCircuit sampleCircuit none [5] ⟨0⟩ sampleParams rfl rfl rfl rfl rfl rfl rfl

/-- C4: `verify` selects the verifier pipeline from the scheme recovered
from the settings together with the TranscriptKind recorded on the proof
object itself, and for all four (scheme, transcript) combinations the
strategy object is the single-proof strategy; no protocol is compiled. -/
theorem C4_theorem (env : Env) (pj pp : Option String) (sp vkp : String)
    (srsp : Option String) (rsrs : Bool) (s : GraphSettings) (proof : Snark)
    (h1 : env.loadSettingsFile sp = Except.ok s)
    (h2 : resolveProof env s.run_args.commitment pj pp = Except.ok proof) :
    verify env pj pp sp vkp srsp rsrs =
      match (match s.run_args.commitment, rsrs with
             | Commitments.KZG, true => load_params_verifier env Commitments.KZG srsp 1
             | Commitments.KZG, false =>
               load_params_verifier env Commitments.KZG srsp s.run_args.logrows
             | Commitments.IPA, _ =>
               load_params_verifier env Commitments.IPA srsp s.run_args.logrows) with
      | Except.error e => Except.error e
      | Except.ok params =>
        verify_commitment env s.run_args.commitment
          (specVerifyVerifier s.run_args.commitment) StrategyObj.SingleProof
          proof.transcript_type pj pp s vkp params s.run_args.logrows := by
  obtain ⟨⟨lr, sch⟩, mrp⟩ := s
  cases sch <;> cases rsrs <;> cases htt : proof.transcript_type <;>
    simp [verify, h1, h2, specVerifyVerifier, htt]

/-- C4 witness: the verification dispatch statement at the concrete sample
environment (KZG settings, EVM-transcript proof). -/
theorem C4_witness :
    verify sampleEnv (some ("p")) none ("s") ("v") (some ("srs")) false =
      match (match sampleSettings.run_args.commitment, false with
             | Commitments.KZG, true =>
               load_params_verifier sampleEnv Commitments.KZG (some ("srs")) 1
             | Commitments.KZG, false =>
               load_params_verifier sampleEnv Commitments.KZG (some ("srs"))
                 sampleSettings.run_args.logrows
             | Commitments.IPA, _ =>
               load_params_verifier sampleEnv Commitments.IPA (some ("srs"))
                 sampleSettings.run_args.logrows) with
      | Except.error e => Except.error e
      | Except.ok params =>
        verify_commitment sampleEnv sampleSettings.run_args.commitment
          (specVerifyVerifier sampleSettings.run_args.commitment) StrategyObj.SingleProof
          sampleSnark.transcript_type (some ("p")) none sampleSettings ("v") params
          sampleSettings.run_args.logrows :=
  C4_theorem sampleEnv (some ("p")) none ("s") ("v") (some ("srs")) false sampleSettings
    sampleSnark rfl rfl

/-- C5: `verify` decodes verifier parameters at the settings' logrows,
except at the minimal capacity 1 when reduced_srs is set on the KZG path;
the IPA path always decodes at logrows (the shortcut is never applied). -/
theorem C5_theorem (env : Env) (pj pp : Option String) (sp vkp : String)
    (srsp : Option String) (rsrs : Bool) (s : GraphSettings) (proof : Snark)
    (h1 : env.loadSettingsFile sp = Except.ok s)
    (h2 : resolveProof env s.run_args.commitment pj pp = Except.ok proof) :
    verify env pj pp sp vkp srsp rsrs =
      match load_params_verifier env s.run_args.commitment srsp
          (specSrsCapacity s.run_args.commitment rsrs s.run_args.logrows) with
      | Except.error e => Except.error e
      | Except.ok params =>
        verify_commitment env s.run_args.commitment
          (specVerifyVerifier s.run_args.commitment) StrategyObj.SingleProof
          proof.transcript_type pj pp s vkp params s.run_args.logrows := by
  obtain ⟨⟨lr, sch⟩, mrp⟩ := s
  cases sch <;> cases rsrs <;> cases htt : proof.transcript_type <;>
    simp [verify, h1, h2, specVerifyVerifier, specSrsCapacity, htt]

/-- C5 witness: the parameter-capacity statement at the concrete sample
environment with reduced_srs set on the KZG path (capacity 1). -/
theorem C5_witness :
    verify sampleEnv (some ("p")) none ("s") ("v") (some ("srs")) true =
      match load_params_verifier sampleEnv sampleSettings.run_args.commitment (some ("srs"))
          (specSrsCapacity sampleSettings.run_args.commitment true
            sampleSettings.run_args.logrows) with
      | Except.error e => Except.error e
      | Except.ok params =>
        verify_commitment sampleEnv sampleSettings.run_args.commitment
          (specVerifyVerifier sampleSettings.run_args.commitment) StrategyObj.SingleProof
          sampleSnark.transcript_type (some ("p")) none sampleSettings ("v") params
          sampleSettings.run_args.logrows :=
  C5_theorem sampleEnv (some ("p")) none ("s") ("v") (some ("srs")) true sampleSettings
    sampleSnark rfl rfl

/-- C6: when verifying-key bytes are supplied, `gen_witness_internal`
decodes them under the KZG scheme unconditionally — the reader is invoked
at KZG for every circuit, regardless of the commitment scheme the
circuit's embedded settings declare. -/
theorem C6_theorem (env : Env) (cc : List Nat) (inp : String) (vkb : List Nat)
    (srs : Option (List Nat)) (circuit : GraphCircuit) (data : GraphData)
    (h1 : env.bincodeDecodeCircuit cc = Except.ok circuit)
    (h2 : env.jsonDecodeGraphData inp = Except.ok data) :
    gen_witness_internal env cc inp (some vkb) srs =
      match deserialize_vk env Commitments.KZG vkb circuit.settings with
      | Except.error e => Except.error e
      | Except.ok v => gen_witness_after_vk env circuit data (some v) srs := by
  rcases hvk : env.readVk Commitments.KZG vkb circuit.settings with e | v <;>
    simp [gen_witness_internal, gen_witness_after_vk, deserialize_circuit, deserialize_vk,
      h1, h2, hvk]

/-- Settings of an IPA circuit whose modules require a polynomial
commitment. -/
def ipaSettings : GraphSettings :=
  ⟨⟨3, Commitments.IPA⟩, true⟩

/-- An IPA circuit carrying `ipaSettings`. -/
def ipaCircuit : GraphCircuit :=
  ⟨ipaSettings, 0⟩

/-- An environment whose verifying-key reader succeeds only under the KZG
scheme and whose circuit decoder yields an IPA circuit, so the scheme the
code picks for the key reader is observable. -/
def schemeSensitiveEnv : Env :=
  { sampleEnv with
    bincodeDecodeCircuit := fun _ => Except.ok ipaCircuit,
    readVk := fun scheme _ _ =>
      match scheme with
      | Commitments.KZG => Except.ok ⟨7⟩
      | Commitments.IPA => Except.error ("vk read under ipa") }

/-- C6 witness: the KZG-layout statement at a concrete environment whose
circuit declares IPA — the verifying key is still decoded under KZG. -/
theorem C6_witness :
    gen_witness_internal schemeSensitiveEnv [0] ("inp") (some [1]) none =
      match deserialize_vk schemeSensitiveEnv Commitments.KZG [1] ipaCircuit.settings with
      | Except.error e => Except.error e
      | Except.ok v => gen_witness_after_vk schemeSensitiveEnv ipaCircuit ⟨0⟩ (some v) none :=
  C6_theorem schemeSensitiveEnv [0] ("inp") [1] none ipaCircuit ⟨0⟩ rfl rfl

/-- An environment whose input-JSON decoder always fails, modelling a
malformed `input_json`. -/
def badJsonEnv : Env :=
  { sampleEnv with
    jsonDecodeGraphData := fun _ => Except.error ("expected value at line 1 column 1") }

/-- C7 (counterexample): with malformed input JSON, the exported witness
generation fails with the `InternalError` variant, not with an error of the
`InvalidInput` class as the claim states. -/
theorem C7_counterexample :
    gen_witness badJsonEnv ("not json") [0] [1] [2] =
      Except.error (EZKLError.InternalError ("expected value at line 1 column 1")) ∧
      (match gen_witness badJsonEnv ("not json") [0] [1] [2] with
       | Except.error e => EZKLError.isInvalidInputVariant e
       | Except.ok _ => true) = false :=
  ⟨rfl, rfl⟩

/-- C7 (amended): for every malformed `input_json` (the JSON decoder
fails), witness generation fails with an `InternalError` wrapping the
parse failure — the boundary conversion maps every internal error,
including malformed-input errors, to the `InternalError` catch-all, and
the `InvalidInput` variant is not produced on this path. -/
theorem C7_amended (env : Env) (inp : String) (cc vkb srsb : List Nat)
    (circuit : GraphCircuit) (msg : String)
    (h1 : env.bincodeDecodeCircuit cc = Except.ok circuit)
    (h2 : env.jsonDecodeGraphData inp = Except.error msg) :
    gen_witness env inp cc vkb srsb = Except.error (EZKLError.InternalError msg) := by
  simp [gen_witness, gen_witness_internal, deserialize_circuit, h1, h2,
    EZKLError.fromInner, InnerError.toMessage]

/-- C7 witness: the amended statement at the concrete failing-decoder
environment. -/
theorem C7_amended_witness :
    gen_witness badJsonEnv ("bad input") [0] [1] [2] =
      Except.error (EZKLError.InternalError ("expected value at line 1 column 1")) :=
  C7_amended badJsonEnv ("bad input") [0] [1] [2] sampleCircuit
    ("expected value at line 1 column 1") rfl rfl

/-- C10: the public `verify_wrapper` calls `verify` with reduced_srs fixed
to false, so verifier parameters are always decoded at the settings'
logrows — the capacity-1 shortcut is unreachable through the exported
interface. -/
theorem C10_theorem (env : Env) (pj : String) (sp vkp : String) (srsp : Option String)
    (s : GraphSettings) (proof : Snark)
    (h1 : env.loadSettingsFile sp = Except.ok s)
    (h2 : env.jsonDecodeSnark pj = Except.ok proof) :
    verify_wrapper env pj sp vkp srsp =
      mapErr EZKLError.fromInner
        (match load_params_verifier env s.run_args.commitment srsp s.run_args.logrows with
         | Except.error e => Except.error e
         | Except.ok params =>
           verify_commitment env s.run_args.commitment
             (specVerifyVerifier s.run_args.commitment) StrategyObj.SingleProof
             proof.transcript_type (some pj) none s vkp params s.run_args.logrows) := by
  obtain ⟨⟨lr, sch⟩, mrp⟩ := s
  cases sch <;> cases htt : proof.transcript_type <;>
    simp [verify_wrapper, verify, resolveProof, h1, h2, specVerifyVerifier, htt]

/-- C10 witness: the wrapper statement at the concrete sample
environment. -/
theorem C10_witness :
    verify_wrapper sampleEnv ("p") ("s") ("v") (some ("srs")) =
      mapErr EZKLError.fromInner
        (match load_params_verifier sampleEnv sampleSettings.run_args.commitment
            (some ("srs")) sampleSettings.run_args.logrows with
         | Except.error e => Except.error e
         | Except.ok params =>
           verify_commitment sampleEnv sampleSettings.run_args.commitment
             (specVerifyVerifier sampleSettings.run_args.commitment) StrategyObj.SingleProof
             sampleSnark.transcript_type (some ("p")) none sampleSettings ("v") params
             sampleSettings.run_args.logrows) :=
  C10_theorem sampleEnv ("p") ("s") ("v") (some ("srs")) sampleSettings sampleSnark rfl rfl

end EzklPort
